import Mathlib

/-!
Shallow embedding of the asynchronous geospatial job orchestration layer of
the `backend-for-capstone1` repository: job admission (bounds / area
validation), the external-process close handlers that drive the job state
machine, batch chunking for building-height estimation, result polling and
alert creation from detections.

Conventions of the embedding:
* JavaScript numbers are modelled as `ℚ` where the source only performs
  rational arithmetic and comparisons, and as `ℝ` where `Math.cos` is used
  (`calculateAreaSize` in the imagery controller).
* `JSON.parse` is an opaque platform primitive; a close handler takes a
  `parse : String → Except String _` argument (the `Except.error` carries the
  exception message of the throw).
* A spawned process's termination is a `ProcOutcome`: exit code (`none` models
  the `null` code delivered to the `close` event when the process failed to
  start), accumulated stdout and accumulated stderr.
* The document store is a list of job records; `findOne({processingId})` is
  `List.find?`.
-/

/-- Job lifecycle states of a `SegmentationResult` record
(`status` field: "queued" | "processing" | "completed" | "failed"). -/
inductive JobStatus : Type
  | queued
  | processing
  | completed
  | failed
deriving DecidableEq, Repr

/-- A bounding box `{minLat, minLng, maxLat, maxLng}` as destructured by the
controllers. -/
structure Bounds : Type where
  minLat : ℚ
  minLng : ℚ
  maxLat : ℚ
  maxLng : ℚ
deriving DecidableEq, Repr

/-- One detection entry of a job result (the fields the orchestration layer
inspects: `class`, `confidence`, `severity`).  `severity` is `none` when the
field is absent in the JSON document. -/
structure Detection : Type where
  cls : String
  confidence : ℚ
  severity : Option String
deriving DecidableEq, Repr

/-- The slice of a `SegmentationResult` document the claims are about:
identity, state, result detections and `metadata.error`.  A freshly admitted
record has no `detections` and no `error` field. -/
structure JobRecord : Type where
  processingId : String
  status : JobStatus
  detections : Option (List Detection)
  error : Option String
deriving DecidableEq, Repr

/-- JavaScript `s || d` on strings: the empty string is falsy. -/
def jsOrString (s d : String) : String :=
  if s = "" then d else s

/-- JavaScript `x || d` where `x` is an optional string field (absent, null
and the empty string are all falsy). -/
def jsOrField (x : Option String) (d : String) : String :=
  match x with
  | none => d
  | some s => if s = "" then d else s

/-- Area formula shared by the building-height, deforestation, mining and
fire controllers: `(maxLat - minLat) * (maxLng - minLng) * 111 * 111`. -/
def areaSimple (b : Bounds) : ℚ :=
  (b.maxLat - b.minLat) * (b.maxLng - b.minLng) * 111 * 111

/-- `calculateAreaSize(minLat, minLng, maxLat, maxLng)` of the imagery
controller: `latDistance * lngDistance` with
`latDistance = (maxLat - minLat) * 111.32` and
`lngDistance = (maxLng - minLng) * 111.32 * cos(avgLat * π / 180)`. -/
noncomputable def calculateAreaSize (minLat minLng maxLat maxLng : ℝ) : ℝ :=
  let avgLat := (minLat + maxLat) / 2
  let latDistance := (maxLat - minLat) * 111.32
  let lngDistance := (maxLng - minLng) * 111.32 * Real.cos (avgLat * Real.pi / 180)
  latDistance * lngDistance

/-- Modelled from the spec: the area formula §4.1 ascribes to the Bounds
Validator for every analysis kind,
`ΔlatDeg × 111.32 × ΔlngDeg × 111.32 × cos(meanLatRad)` with
`meanLatRad` the mean latitude of the box in radians. -/
noncomputable def specAreaKm2 (minLat minLng maxLat maxLng : ℝ) : ℝ :=
  (maxLat - minLat) * 111.32 * (maxLng - minLng) * 111.32 *
    Real.cos ((minLat + maxLat) / 2 * Real.pi / 180)

/-- Synchronous admission failures (HTTP 400 reasons). -/
inductive AdmissionError : Type
  | missingBounds
  | invalidBounds
  | areaTooLarge
deriving DecidableEq, Repr

/-- The record each controller creates before spawning its python process:
`status: "processing"`, no detections, no error. -/
def freshProcessingRecord (pid : String) : JobRecord :=
  { processingId := pid, status := .processing, detections := none, error := none }

/-- The `coordinates` request field of `estimateBuildingHeights`: either a
`bounds` object, or a `lat`/`lng` point with optional `radius`, or neither. -/
inductive HeightCoordinates : Type
  | boundsInput (b : Bounds)
  | pointInput (lat lng : ℚ) (radius : Option ℚ)
  | invalid

/-- Bounds resolution of `estimateBuildingHeights`: a `bounds` object is used
as-is; a point is widened by `radius || 1000` metres converted to degrees via
`radius / 111000`.  JavaScript truthiness: `coordinates.lat && coordinates.lng`
rejects a zero coordinate, and `coordinates.radius || 1000` replaces a zero
radius by the default. -/
def heightResolveBounds : HeightCoordinates → Option Bounds
  | .boundsInput b => some b
  | .pointInput lat lng radius =>
      if lat = 0 ∨ lng = 0 then none
      else
        let r := match radius with
          | none => 1000
          | some r => if r = 0 then 1000 else r
        let d := r / 111000
        some { minLat := lat - d, minLng := lng - d, maxLat := lat + d, maxLng := lng + d }
  | .invalid => none

/-- Admission path of `estimateBuildingHeights` (part_011, lines 14-91):
resolve bounds, compute `areaSize = Δlat * Δlng * 111 * 111`, reject above
100 km², otherwise save a record in `processing`.  Note the source performs
no `minLat ≥ maxLat` ordering check for this analysis kind. -/
def heightAdmission (pid : String) (c : HeightCoordinates) :
    Except AdmissionError JobRecord :=
  match heightResolveBounds c with
  | none => .error .missingBounds
  | some b =>
      if areaSimple b > 100 then .error .areaTooLarge
      else .ok (freshProcessingRecord pid)

/-- Admission path of `analyzeDeforestation` (deforestationController.js,
lines 12-64): require bounds, reject `minLat >= maxLat || minLng >= maxLng`,
reject area above 10,000 km², otherwise save a record in `processing`. -/
def deforestationAdmission (pid : String) (coords : Option Bounds) :
    Except AdmissionError JobRecord :=
  match coords with
  | none => .error .missingBounds
  | some b =>
      if b.minLat ≥ b.maxLat ∨ b.minLng ≥ b.maxLng then .error .invalidBounds
      else if areaSimple b > 10000 then .error .areaTooLarge
      else .ok (freshProcessingRecord pid)

/-- Admission path of `detectMiningActivities` (miningController.js,
lines 12-64): same checks with a 5,000 km² ceiling. -/
def miningAdmission (pid : String) (coords : Option Bounds) :
    Except AdmissionError JobRecord :=
  match coords with
  | none => .error .missingBounds
  | some b =>
      if b.minLat ≥ b.maxLat ∨ b.minLng ≥ b.maxLng then .error .invalidBounds
      else if areaSimple b > 5000 then .error .areaTooLarge
      else .ok (freshProcessingRecord pid)

/-- Admission path of `detectForestFires` (part_012, lines 12-65): same
checks with a 50,000 km² ceiling. -/
def fireAdmission (pid : String) (coords : Option Bounds) :
    Except AdmissionError JobRecord :=
  match coords with
  | none => .error .missingBounds
  | some b =>
      if b.minLat ≥ b.maxLat ∨ b.minLng ≥ b.maxLng then .error .invalidBounds
      else if areaSimple b > 50000 then .error .areaTooLarge
      else .ok (freshProcessingRecord pid)

/-- Validation of `processGeographicArea` (part_010, lines 11-42): ordering
check, then `calculateAreaSize` against the 1,000 km² ceiling.  `.ok ()`
means validation passed (the record is then created after the synchronous
satellite run). -/
noncomputable def processGeographicAreaAdmission (minLat minLng maxLat maxLng : ℝ) :
    Except AdmissionError Unit :=
  if minLat ≥ maxLat ∨ minLng ≥ maxLng then .error .invalidBounds
  else if calculateAreaSize minLat minLng maxLat maxLng > 1000 then .error .areaTooLarge
  else .ok ()

/-- Termination of a spawned python process as seen by the `close` event:
exit code (`none` models the `null` code after a failed start), accumulated
stdout and accumulated stderr. -/
structure ProcOutcome : Type where
  code : Option Int
  stdout : String
  stderr : String
deriving DecidableEq, Repr

/-- Template-string rendering of the exit code in
"Process failed with code ${code}". -/
def codeText : Option Int → String
  | none => "null"
  | some n => toString n

/-- One building entry of `results.buildings` in the height-estimation JSON
output (only the fields used by the close handler's mapping). -/
structure HeightBuilding : Type where
  confidence : ℚ
  lat : ℚ
  lng : ℚ
  estimatedHeight : ℚ
  category : Option String
deriving DecidableEq, Repr

/-- Parsed stdout of `height_estimation.py`; `buildings` is `none` when the
key is absent (`results.buildings || []`). -/
structure HeightResults : Type where
  buildings : Option (List HeightBuilding)
deriving DecidableEq, Repr

/-- Parsed stdout of the deforestation / mining / fire scripts; `detections`
is `none` when the key is absent (`results.detections || []`). -/
structure PyResults : Type where
  detections : Option (List Detection)
deriving DecidableEq, Repr

/-- The per-building detection mapping of the height close handler
(part_011, lines 161-184): class `"urban_expansion"`, confidence scaled to a
percentage, severity derived from the building category. -/
def buildingToDetection (b : HeightBuilding) : Detection :=
  { cls := "urban_expansion",
    confidence := b.confidence * 100,
    severity := some (if b.category = some "skyscraper" then "high"
      else if b.category = some "high" then "medium" else "low") }

/-- Close handler of `estimateBuildingHeights` (part_011, lines 128-230),
as a state update on the record found for the processing id.
`if (code === 0 && pythonOutput)`: parse stdout; on success mark `completed`
and store the mapped detections; a parse throw is caught locally and marks
`failed` with `"JSON parsing error: " + message`; otherwise mark `failed`
with `pythonError || "Process failed with code " + code`. -/
def heightOnClose (parse : String → Except String HeightResults)
    (o : ProcOutcome) (rec : JobRecord) : JobRecord :=
  if o.code = some 0 ∧ o.stdout ≠ "" then
    match parse o.stdout with
    | .ok results =>
        { rec with status := .completed,
                   detections := some ((results.buildings.getD []).map buildingToDetection) }
    | .error msg =>
        { rec with status := .failed,
                   error := some ("JSON parsing error: " ++ msg) }
  else
    { rec with status := .failed,
               error := some (jsOrString o.stderr ("Process failed with code " ++ codeText o.code)) }

/-- Close handler of `analyzeDeforestation` (deforestationController.js,
lines 90-142).  On exit 0 with non-empty stdout the parse is NOT guarded by a
local try: a parse throw falls into the outer catch, which only logs and
sends an HTTP 500 — the record is left untouched (still `processing`).  On a
non-zero (or null) code, or empty stdout, the record is marked `failed` with
`pythonError || "Processing failed"`. -/
def deforestationOnClose (parse : String → Except String PyResults)
    (o : ProcOutcome) (rec : JobRecord) : JobRecord :=
  if o.code = some 0 ∧ o.stdout ≠ "" then
    match parse o.stdout with
    | .ok results =>
        { rec with status := .completed,
                   detections := some (results.detections.getD []) }
    | .error _ => rec
  else
    { rec with status := .failed,
               error := some (jsOrString o.stderr "Processing failed") }

/-- Close handler of `detectMiningActivities` (miningController.js,
lines 91-141): identical control flow to the deforestation handler, generic
message `"Mining detection failed"`. -/
def miningOnClose (parse : String → Except String PyResults)
    (o : ProcOutcome) (rec : JobRecord) : JobRecord :=
  if o.code = some 0 ∧ o.stdout ≠ "" then
    match parse o.stdout with
    | .ok results =>
        { rec with status := .completed,
                   detections := some (results.detections.getD []) }
    | .error _ => rec
  else
    { rec with status := .failed,
               error := some (jsOrString o.stderr "Mining detection failed") }

/-- Close handler of `detectForestFires` (part_012, lines 92-145): identical
control flow to the deforestation handler, generic message
`"Fire detection failed"`. -/
def fireOnClose (parse : String → Except String PyResults)
    (o : ProcOutcome) (rec : JobRecord) : JobRecord :=
  if o.code = some 0 ∧ o.stdout ≠ "" then
    match parse o.stdout with
    | .ok results =>
        { rec with status := .completed,
                   detections := some (results.detections.getD []) }
    | .error _ => rec
  else
    { rec with status := .failed,
               error := some (jsOrString o.stderr "Fire detection failed") }

/-- Payload of `getHeightResults` (part_011, lines 318-339): processing id,
status, the detections (as `buildings`) and the recorded error. -/
structure PollPayload : Type where
  processingId : String
  status : JobStatus
  buildings : Option (List Detection)
  error : Option String
deriving DecidableEq, Repr

/-- `getHeightResults`: `findOne({processingId})` on the store and a pure
projection of the found record; the store is returned unchanged (the handler
performs no write). -/
def getHeightResults (store : List JobRecord) (pid : String) :
    List JobRecord × Option PollPayload :=
  (store,
   (store.find? (fun r => r.processingId = pid)).map
     (fun r => { processingId := pid, status := r.status,
                 buildings := r.detections, error := r.error }))

/-- An alert entity as created by `createAlertsFromDetections` (the fields
the claims are about). -/
structure Alert : Type where
  alertType : String
  severity : String
  confidence : ℚ
  zoneId : String
deriving DecidableEq, Repr

/-- Default of the `threshold = 70` parameter of
`createAlertsFromDetections`, and of the `alertThreshold = 70` request
default in `processGeographicArea`. -/
def defaultAlertThreshold : ℚ := 70

/-- `createAlertsFromDetections(userId, zoneName, detections, threshold)`
(part_010, lines 432-467): one alert per detection with
`detection.confidence >= threshold`, severity `detection.severity || "medium"`
(alert writes are modelled as succeeding). -/
def createAlertsFromDetections (zoneName : String)
    (detections : List Detection) (threshold : ℚ) : List Alert :=
  (detections.filter (fun d => d.confidence ≥ threshold)).map
    (fun d =>
      { alertType := d.cls,
        severity := jsOrField d.severity "medium",
        confidence := d.confidence,
        zoneId := zoneName })

/-- One element of the `buildings` array of a batch request (the JS loop
copies exactly `{lat, lng, id}` into each chunk record). -/
structure BuildingPt : Type where
  lat : ℚ
  lng : ℚ
  id : String
deriving DecidableEq, Repr

/-- The chunk slicing of `batchHeightEstimation`:
`for (i = 0; i < buildings.length; i += 50) chunk = buildings.slice(i, i + 50)`. -/
def chunksOf : List BuildingPt → List (List BuildingPt)
  | [] => []
  | l@(_ :: _) => l.take 50 :: chunksOf (l.drop 50)
termination_by l => l.length
decreasing_by simp [List.length_drop, *]; omega

/-- One chunk job record of a batch (`processingId`, `metadata.batchId`,
`metadata.chunkIndex`, `coordinates.buildings`, `status`). -/
structure ChunkRecord : Type where
  processingId : String
  batchId : String
  chunkIndex : Nat
  buildings : List BuildingPt
  status : JobStatus
deriving DecidableEq, Repr

/-- One entry of the immediate batch response
(`{processingId, buildingCount, status: "queued"}`). -/
structure BatchResponseEntry : Type where
  processingId : String
  buildingCount : Nat
  status : String
deriving DecidableEq, Repr

/-- Batch admission failures. -/
inductive BatchError : Type
  | emptyBatch
  | batchTooLarge
deriving DecidableEq, Repr

/-- The records created by the chunk loop, starting at chunk index `i`:
each gets `processingId = batchId + "_chunk_" + index`,
`coordinates.buildings = chunk.map(b => ({lat: b.lat, lng: b.lng, id: b.id}))`
and `status: "processing"`. -/
def buildChunkRecords (batchId : String) (i : Nat) :
    List (List BuildingPt) → List ChunkRecord
  | [] => []
  | c :: rest =>
      { processingId := batchId ++ "_chunk_" ++ toString i,
        batchId := batchId,
        chunkIndex := i,
        buildings := c.map (fun b => { lat := b.lat, lng := b.lng, id := b.id }),
        status := .processing } :: buildChunkRecords batchId (i + 1) rest

/-- `batchHeightEstimation` (part_011, lines 246-315): reject a missing or
empty array, reject more than 1000 buildings, otherwise create one record
per 50-element slice and answer with per-chunk `status: "queued"` entries. -/
def batchHeightEstimation (batchId : String) (buildings : List BuildingPt) :
    Except BatchError (List ChunkRecord × List BatchResponseEntry) :=
  if buildings = [] then .error .emptyBatch
  else if buildings.length > 1000 then .error .batchTooLarge
  else
    let records := buildChunkRecords batchId 0 (chunksOf buildings)
    .ok (records,
         records.map (fun r =>
           { processingId := r.processingId,
             buildingCount := r.buildings.length,
             status := "queued" }))

theorem chunksOf_nil : chunksOf [] = [] := by
  simp [chunksOf]

theorem chunksOf_cons (a : BuildingPt) (l : List BuildingPt) :
    chunksOf (a :: l) = (a :: l).take 50 :: chunksOf ((a :: l).drop 50) := by
  simp [chunksOf]

theorem flatten_chunksOf (l : List BuildingPt) : (chunksOf l).flatten = l := by
  induction l using chunksOf.induct with
  | case1 => simp [chunksOf]
  | case2 a t ih =>
      rw [chunksOf_cons, List.flatten_cons, ih, List.take_append_drop]

theorem length_chunksOf (l : List BuildingPt) :
    (chunksOf l).length = (l.length + 49) / 50 := by
  induction l using chunksOf.induct with
  | case1 => simp [chunksOf]
  | case2 a t ih =>
      rw [chunksOf_cons, List.length_cons, ih, List.length_drop]
      simp only [List.length_cons]
      omega

theorem length_le_of_mem_chunksOf {c l : List BuildingPt}
    (h : c ∈ chunksOf l) : c.length ≤ 50 := by
  induction l using chunksOf.induct with
  | case1 => simp [chunksOf] at h
  | case2 a t ih =>
      rw [chunksOf_cons] at h
      rcases List.mem_cons.mp h with h | h
      · subst h
        simp [List.length_take]
      · exact ih h

theorem length_buildChunkRecords (bid : String) (i : Nat)
    (cs : List (List BuildingPt)) :
    (buildChunkRecords bid i cs).length = cs.length := by
  induction cs generalizing i with
  | nil => rfl
  | cons c rest ih => simp [buildChunkRecords, ih]

theorem map_pt_eta (c : List BuildingPt) :
    c.map (fun b => { lat := b.lat, lng := b.lng, id := b.id : BuildingPt }) = c := by
  induction c with
  | nil => rfl
  | cons b rest ih => simp [ih]

theorem map_buildings_buildChunkRecords (bid : String) (i : Nat)
    (cs : List (List BuildingPt)) :
    (buildChunkRecords bid i cs).map (fun r => r.buildings) = cs := by
  induction cs generalizing i with
  | nil => rfl
  | cons c rest ih => simp [buildChunkRecords, ih, map_pt_eta]

theorem mem_buildChunkRecords {bid : String} {i : Nat}
    {cs : List (List BuildingPt)} {r : ChunkRecord}
    (h : r ∈ buildChunkRecords bid i cs) :
    r.batchId = bid ∧ r.status = .processing ∧ r.buildings ∈ cs := by
  induction cs generalizing i with
  | nil => simp [buildChunkRecords] at h
  | cons c rest ih =>
      rcases List.mem_cons.mp h with h | h
      · subst h
        simp [map_pt_eta]
      · rcases ih h with ⟨h1, h2, h3⟩
        exact ⟨h1, h2, List.mem_cons_of_mem _ h3⟩

theorem chunkIndex_buildChunkRecords (bid : String) (i : Nat)
    (cs : List (List BuildingPt)) (j : Nat)
    (h : j < (buildChunkRecords bid i cs).length) :
    ((buildChunkRecords bid i cs).get ⟨j, h⟩).chunkIndex = i + j := by
  induction cs generalizing i j with
  | nil => simp [buildChunkRecords] at h
  | cons c rest ih =>
      cases j with
      | zero => simp [buildChunkRecords]
      | succ j =>
          have h2 : j < (buildChunkRecords bid (i + 1) rest).length := by
            simpa [buildChunkRecords] using h
          have h3 := ih (i + 1) j h2
          show ((buildChunkRecords bid (i + 1) rest).get ⟨j, h2⟩).chunkIndex = i + (j + 1)
          omega

/-- C4: For every batch submission of N building units with 1 ≤ N ≤ 1000,
exactly ⌈N/50⌉ chunk records are created whose building lists are
consecutive, order-preserving, pairwise-disjoint slices of the input
(their concatenation is exactly the input, hence they sum to N), each of
size at most 50, all sharing one batch id with chunk indices ascending from
0; an empty batch is rejected as an empty batch and one with N > 1000 as too
large, with no records created. -/
theorem batch_chunking_spec (batchId : String) (buildings : List BuildingPt) :
    (buildings = [] → batchHeightEstimation batchId buildings = .error .emptyBatch)
  ∧ (buildings.length > 1000 →
      batchHeightEstimation batchId buildings = .error .batchTooLarge)
  ∧ (buildings ≠ [] → buildings.length ≤ 1000 →
      ∃ records responses,
        batchHeightEstimation batchId buildings = .ok (records, responses)
      ∧ records.length = (buildings.length + 49) / 50
      ∧ (records.map (fun r => r.buildings)).flatten = buildings
      ∧ (∀ r ∈ records, r.buildings.length ≤ 50 ∧ r.batchId = batchId)
      ∧ (∀ (j : Nat) (hj : j < records.length),
            (records.get ⟨j, hj⟩).chunkIndex = j)) := by
  refine ⟨?_, ?_, ?_⟩
  · intro h
    simp [batchHeightEstimation, h]
  · intro h
    have hne : ¬ buildings = [] := by
      intro e
      rw [e] at h
      simp at h
    unfold batchHeightEstimation
    rw [if_neg hne, if_pos h]
  · intro hne hle
    have c2 : ¬ buildings.length > 1000 := by omega
    refine ⟨buildChunkRecords batchId 0 (chunksOf buildings),
            (buildChunkRecords batchId 0 (chunksOf buildings)).map (fun r =>
              { processingId := r.processingId,
                buildingCount := r.buildings.length,
                status := "queued" }),
            ?_, ?_, ?_, ?_, ?_⟩
    · unfold batchHeightEstimation
      rw [if_neg hne, if_neg c2]
    · rw [length_buildChunkRecords, length_chunksOf]
    · rw [map_buildings_buildChunkRecords, flatten_chunksOf]
    · intro r hr
      rcases mem_buildChunkRecords hr with ⟨h1, _, h3⟩
      exact ⟨length_le_of_mem_chunksOf h3, h1⟩
    · intro j hj
      have h := chunkIndex_buildChunkRecords batchId 0 (chunksOf buildings) j hj
      simpa using h

theorem batch_chunking_spec_witness :
    (List.replicate 120 ({ lat := 0, lng := 0, id := "x" } : BuildingPt) ≠ []
      ∧ (List.replicate 120 ({ lat := 0, lng := 0, id := "x" } : BuildingPt)).length ≤ 1000)
  ∧ ∃ records responses,
      batchHeightEstimation "b"
          (List.replicate 120 { lat := 0, lng := 0, id := "x" }) = .ok (records, responses)
    ∧ records.length = 3
    ∧ (records.map (fun r => r.buildings)).flatten =
        List.replicate 120 { lat := 0, lng := 0, id := "x" }
    ∧ (∀ r ∈ records, r.buildings.length ≤ 50 ∧ r.batchId = "b")
    ∧ (∀ (j : Nat) (hj : j < records.length), (records.get ⟨j, hj⟩).chunkIndex = j) := by
  refine ⟨⟨by simp, by simp⟩, ?_⟩
  obtain ⟨records, responses, h1, h2, h3, h4, h5⟩ :=
    (batch_chunking_spec "b" (List.replicate 120 { lat := 0, lng := 0, id := "x" })).2.2
      (by simp) (by simp)
  exact ⟨records, responses, h1, by simpa using h2, h3, h4, h5⟩

/-- C5 (amended): every chunk record produced by batch submission is created
in the `processing` state in the store — not `queued` — while the immediate
batch response reports each chunk with status "queued"; the stored state and
the reported status disagree. -/
theorem chunk_status_mismatch (batchId : String) (buildings : List BuildingPt)
    (records : List ChunkRecord) (responses : List BatchResponseEntry)
    (h : batchHeightEstimation batchId buildings = .ok (records, responses)) :
    (∀ r ∈ records, r.status = .processing)
  ∧ (∀ e ∈ responses, e.status = "queued")
  ∧ JobStatus.processing ≠ JobStatus.queued := by
  unfold batchHeightEstimation at h
  split at h
  · simp at h
  · split at h
    · simp at h
    · simp only [Except.ok.injEq, Prod.mk.injEq] at h
      obtain ⟨hr, hresp⟩ := h
      subst hr
      subst hresp
      refine ⟨?_, ?_, by decide⟩
      · intro r hr
        exact (mem_buildChunkRecords hr).2.1
      · intro e he
        rcases List.mem_map.mp he with ⟨r, _, he⟩
        rw [← he]

theorem chunk_status_mismatch_witness :
    (∀ r ∈ [{ processingId := "b_chunk_0", batchId := "b", chunkIndex := 0,
              buildings := [{ lat := 0, lng := 0, id := "1" }],
              status := .processing : ChunkRecord }], r.status = JobStatus.processing)
  ∧ (∀ e ∈ [{ processingId := "b_chunk_0", buildingCount := 1,
              status := "queued" : BatchResponseEntry }], e.status = "queued")
  ∧ JobStatus.processing ≠ JobStatus.queued := by
  refine chunk_status_mismatch "b" [{ lat := 0, lng := 0, id := "1" }] _ _ ?_
  have h1 : chunksOf [{ lat := 0, lng := 0, id := "1" }] =
      [[{ lat := 0, lng := 0, id := "1" }]] := by
    rw [chunksOf_cons, List.take_of_length_le (by simp),
        List.drop_eq_nil_of_le (by simp), chunksOf_nil]
  unfold batchHeightEstimation
  rw [if_neg (by simp), if_neg (by simp), h1]
  rfl

/-- C5 counterexample: a batch of a single building creates its chunk record
with status `processing` in the store, not `queued` as the claim states,
while the response entry for the same chunk says "queued". -/
theorem chunk_created_processing_not_queued :
    batchHeightEstimation "b" [{ lat := 0, lng := 0, id := "1" }] =
      .ok ([{ processingId := "b_chunk_0", batchId := "b", chunkIndex := 0,
              buildings := [{ lat := 0, lng := 0, id := "1" }], status := .processing }],
           [{ processingId := "b_chunk_0", buildingCount := 1, status := "queued" }])
    ∧ JobStatus.processing ≠ JobStatus.queued := by
  constructor
  · have h1 : chunksOf [{ lat := 0, lng := 0, id := "1" }] =
        [[{ lat := 0, lng := 0, id := "1" }]] := by
      rw [chunksOf_cons, List.take_of_length_le (by simp),
          List.drop_eq_nil_of_le (by simp), chunksOf_nil]
    unfold batchHeightEstimation
    rw [if_neg (by simp), if_neg (by simp), h1]
    rfl
  · decide

/-- C6: for a completed job's detection list and confidence threshold
(caller-supplied, default 70), exactly one alert is created per detection
whose confidence is ≥ the threshold and none for a detection below it; each
alert's severity is the detection's severity when (truthily) present and
"medium" otherwise; for `[{confidence:75},{confidence:40}]` and threshold 70
exactly one alert is created. -/
theorem alert_threshold_filter (zone : String) (detections : List Detection) (t : ℚ) :
    (createAlertsFromDetections zone detections t).length =
      (detections.filter (fun d => d.confidence ≥ t)).length
  ∧ (∀ a ∈ createAlertsFromDetections zone detections t,
        ∃ d ∈ detections, t ≤ d.confidence ∧ a.confidence = d.confidence
          ∧ a.alertType = d.cls ∧ a.severity = jsOrField d.severity "medium"
          ∧ a.zoneId = zone)
  ∧ (∀ d ∈ detections, t ≤ d.confidence →
        ∃ a ∈ createAlertsFromDetections zone detections t,
          a.confidence = d.confidence ∧ a.severity = jsOrField d.severity "medium")
  ∧ defaultAlertThreshold = 70
  ∧ (createAlertsFromDetections zone
        [{ cls := "deforestation", confidence := 75, severity := none },
         { cls := "deforestation", confidence := 40, severity := none }] 70).length = 1 := by
  refine ⟨?_, ?_, ?_, rfl, ?_⟩
  · simp [createAlertsFromDetections]
  · intro a ha
    rcases List.mem_map.mp ha with ⟨d, hd, ha⟩
    rcases List.mem_filter.mp hd with ⟨hdmem, hconf⟩
    refine ⟨d, hdmem, by simpa using hconf, ?_, ?_, ?_, ?_⟩ <;> rw [← ha]
  · intro d hd hconf
    refine ⟨{ alertType := d.cls, severity := jsOrField d.severity "medium",
              confidence := d.confidence, zoneId := zone }, ?_, rfl, rfl⟩
    exact List.mem_map.mpr
      ⟨d, List.mem_filter.mpr ⟨hd, by simpa using hconf⟩, rfl⟩
  · norm_num [createAlertsFromDetections, List.filter]

theorem alert_threshold_filter_witness :
    ∃ a ∈ createAlertsFromDetections "z"
        [{ cls := "deforestation", confidence := 75, severity := none },
         { cls := "deforestation", confidence := 40, severity := none }] 70,
      a.confidence = 75 ∧ a.severity = jsOrField none "medium" := by
  have h := (alert_threshold_filter "z"
      [{ cls := "deforestation", confidence := 75, severity := none },
       { cls := "deforestation", confidence := 40, severity := none }] 70).2.2.1
  exact h { cls := "deforestation", confidence := 75, severity := none }
    (by simp) (by norm_num)

/-- C9: lifecycle invariants of a building-height job record: the record is
created in `processing`; its single close event moves it to a terminal state
(`completed` or `failed`, never back to `queued`/`processing`); at every
point of the lifetime, detections are populated only in `completed`, the
error only in `failed`, and never both; and polling (`getHeightResults`)
never mutates the store, so polling a terminal record repeatedly returns an
identical payload. -/
theorem job_record_invariants (parse : String → Except String HeightResults)
    (o : ProcOutcome) (pid : String) (store : List JobRecord) :
    (freshProcessingRecord pid).status = .processing
  ∧ ((heightOnClose parse o (freshProcessingRecord pid)).status = .completed
      ∨ (heightOnClose parse o (freshProcessingRecord pid)).status = .failed)
  ∧ (∀ s ∈ [freshProcessingRecord pid,
            heightOnClose parse o (freshProcessingRecord pid)],
        (s.detections ≠ none → s.status = .completed)
      ∧ (s.error ≠ none → s.status = .failed)
      ∧ ¬(s.detections ≠ none ∧ s.error ≠ none))
  ∧ (getHeightResults store pid).1 = store
  ∧ (getHeightResults ((getHeightResults store pid).1) pid).2 =
      (getHeightResults store pid).2 := by
  refine ⟨rfl, ?_, ?_, rfl, rfl⟩
  · by_cases hc : o.code = some 0 ∧ o.stdout ≠ ""
    · cases hp : parse o.stdout with
      | ok res => left; simp [heightOnClose, hc, hp]
      | error m => right; simp [heightOnClose, hc, hp]
    · right; simp [heightOnClose, hc]
  · intro s hs
    rcases List.mem_cons.mp hs with rfl | hs
    · simp [freshProcessingRecord]
    · rcases List.mem_cons.mp hs with rfl | hs
      · by_cases hc : o.code = some 0 ∧ o.stdout ≠ ""
        · cases hp : parse o.stdout with
          | ok res => simp [heightOnClose, hc, hp, freshProcessingRecord]
          | error m => simp [heightOnClose, hc, hp, freshProcessingRecord]
        · simp [heightOnClose, hc, freshProcessingRecord]
      · simp at hs

theorem job_record_invariants_witness :
    (freshProcessingRecord "h").status = JobStatus.processing
  ∧ ((heightOnClose (fun _ => .ok { buildings := none }) { code := some 0, stdout := "{}", stderr := "" }
        (freshProcessingRecord "h")).status = .completed
      ∨ (heightOnClose (fun _ => .ok { buildings := none }) { code := some 0, stdout := "{}", stderr := "" }
        (freshProcessingRecord "h")).status = .failed)
  ∧ ((freshProcessingRecord "h").detections ≠ none → (freshProcessingRecord "h").status = .completed)
  ∧ (getHeightResults [freshProcessingRecord "h"] "h").1 = [freshProcessingRecord "h"] := by
  obtain ⟨h1, h2, h3, h4, _⟩ := job_record_invariants
    (fun _ => .ok { buildings := none }) { code := some 0, stdout := "{}", stderr := "" }
    "h" [freshProcessingRecord "h"]
  exact ⟨h1, h2, (h3 (freshProcessingRecord "h") (by simp)).1, h4⟩

/-- C1 (amended): for every admitted job whose analysis process terminates:
exit code 0 with non-empty stdout that parses as JSON completes the record
with its result populated, and a non-zero exit code (or a failed start,
whose close event carries a null code) fails the record with the stderr text
or a generic message — both for all four kinds; but a JSON parse failure
transitions the record to failed with a descriptive parse error only for
building-height: for deforestation, mining and fire the parse throw reaches
the handler's outer catch, which only logs and answers the HTTP request, so
the record is left unchanged, still in `processing`. -/
theorem close_handler_outcomes
    (hparse : String → Except String HeightResults)
    (dparse mparse fparse : String → Except String PyResults)
    (o : ProcOutcome) (rec : JobRecord) :
    (∀ res, o.code = some 0 → o.stdout ≠ "" → hparse o.stdout = .ok res →
        (heightOnClose hparse o rec).status = .completed
      ∧ (heightOnClose hparse o rec).detections =
          some ((res.buildings.getD []).map buildingToDetection))
  ∧ (∀ res, o.code = some 0 → o.stdout ≠ "" → dparse o.stdout = .ok res →
        (deforestationOnClose dparse o rec).status = .completed
      ∧ (deforestationOnClose dparse o rec).detections = some (res.detections.getD []))
  ∧ (∀ res, o.code = some 0 → o.stdout ≠ "" → mparse o.stdout = .ok res →
        (miningOnClose mparse o rec).status = .completed
      ∧ (miningOnClose mparse o rec).detections = some (res.detections.getD []))
  ∧ (∀ res, o.code = some 0 → o.stdout ≠ "" → fparse o.stdout = .ok res →
        (fireOnClose fparse o rec).status = .completed
      ∧ (fireOnClose fparse o rec).detections = some (res.detections.getD []))
  ∧ (o.code ≠ some 0 →
        (heightOnClose hparse o rec).status = .failed
      ∧ (heightOnClose hparse o rec).error =
          some (jsOrString o.stderr ("Process failed with code " ++ codeText o.code))
      ∧ (deforestationOnClose dparse o rec).status = .failed
      ∧ (deforestationOnClose dparse o rec).error =
          some (jsOrString o.stderr "Processing failed")
      ∧ (miningOnClose mparse o rec).status = .failed
      ∧ (miningOnClose mparse o rec).error =
          some (jsOrString o.stderr "Mining detection failed")
      ∧ (fireOnClose fparse o rec).status = .failed
      ∧ (fireOnClose fparse o rec).error =
          some (jsOrString o.stderr "Fire detection failed"))
  ∧ (∀ msg, o.code = some 0 → o.stdout ≠ "" → hparse o.stdout = .error msg →
        (heightOnClose hparse o rec).status = .failed
      ∧ (heightOnClose hparse o rec).error = some ("JSON parsing error: " ++ msg))
  ∧ (∀ msg, o.code = some 0 → o.stdout ≠ "" → dparse o.stdout = .error msg →
        deforestationOnClose dparse o rec = rec)
  ∧ (∀ msg, o.code = some 0 → o.stdout ≠ "" → mparse o.stdout = .error msg →
        miningOnClose mparse o rec = rec)
  ∧ (∀ msg, o.code = some 0 → o.stdout ≠ "" → fparse o.stdout = .error msg →
        fireOnClose fparse o rec = rec) := by
  refine ⟨?_, ?_, ?_, ?_, ?_, ?_, ?_, ?_, ?_⟩
  · intro res h0 hne hp
    constructor <;> simp [heightOnClose, h0, hne, hp]
  · intro res h0 hne hp
    constructor <;> simp [deforestationOnClose, h0, hne, hp]
  · intro res h0 hne hp
    constructor <;> simp [miningOnClose, h0, hne, hp]
  · intro res h0 hne hp
    constructor <;> simp [fireOnClose, h0, hne, hp]
  · intro h0
    refine ⟨?_, ?_, ?_, ?_, ?_, ?_, ?_, ?_⟩ <;>
      simp [heightOnClose, deforestationOnClose, miningOnClose, fireOnClose, h0]
  · intro msg h0 hne hp
    constructor <;> simp [heightOnClose, h0, hne, hp]
  · intro msg h0 hne hp
    simp [deforestationOnClose, h0, hne, hp]
  · intro msg h0 hne hp
    simp [miningOnClose, h0, hne, hp]
  · intro msg h0 hne hp
    simp [fireOnClose, h0, hne, hp]

theorem close_handler_outcomes_witness :
    ((heightOnClose (fun _ => .ok { buildings := some [] })
        { code := some 0, stdout := "{}", stderr := "" } (freshProcessingRecord "h")).status
      = JobStatus.completed)
  ∧ ((deforestationOnClose (fun _ => .error "Unexpected token")
        { code := some 0, stdout := "bad", stderr := "" } (freshProcessingRecord "d"))
      = freshProcessingRecord "d")
  ∧ ((fireOnClose (fun _ => .ok { detections := none })
        { code := some 1, stdout := "", stderr := "boom" } (freshProcessingRecord "f")).error
      = some (jsOrString "boom" "Fire detection failed")) := by
  refine ⟨?_, ?_, ?_⟩
  · exact ((close_handler_outcomes (fun _ => .ok { buildings := some [] })
      (fun _ => .error "Unexpected token") (fun _ => .ok { detections := none })
      (fun _ => .ok { detections := none })
      { code := some 0, stdout := "{}", stderr := "" } (freshProcessingRecord "h")).1
      { buildings := some [] } rfl (by decide) rfl).1
  · exact (close_handler_outcomes (fun _ => .ok { buildings := some [] })
      (fun _ => .error "Unexpected token") (fun _ => .ok { detections := none })
      (fun _ => .ok { detections := none })
      { code := some 0, stdout := "bad", stderr := "" } (freshProcessingRecord "d")).2.2.2.2.2.2.1
      "Unexpected token" rfl (by decide) rfl
  · exact ((close_handler_outcomes (fun _ => .ok { buildings := some [] })
      (fun _ => .error "Unexpected token") (fun _ => .ok { detections := none })
      (fun _ => .ok { detections := none })
      { code := some 1, stdout := "", stderr := "boom" } (freshProcessingRecord "f")).2.2.2.2.1
      (by decide)).2.2.2.2.2.2.2

/-- C1 counterexample: for the deforestation kind, exit code 0 with stdout
that fails to parse as JSON leaves the job record unchanged — still in
`processing` — instead of transitioning it to failed with a parse error. -/
theorem parse_failure_keeps_processing :
    deforestationOnClose (fun _ => .error "Unexpected token g in JSON")
        { code := some 0, stdout := "garbage", stderr := "" }
        (freshProcessingRecord "d")
      = freshProcessingRecord "d"
  ∧ (freshProcessingRecord "d").status = JobStatus.processing := by
  constructor
  · rfl
  · rfl

/-- C10 (amended): if the process exits with code 0 but writes an empty
stdout, the job is marked failed — neither completed nor left in processing
— with the accumulated stderr as its error when non-empty, and otherwise a
generic message: "Process failed with code 0" (naming the exit code) for
building-height, but the plain "Processing failed" for deforestation. -/
theorem exit_zero_empty_stdout_failed
    (hparse : String → Except String HeightResults)
    (dparse : String → Except String PyResults)
    (o : ProcOutcome) (rec : JobRecord)
    (h0 : o.code = some 0) (hout : o.stdout = "") :
    (heightOnClose hparse o rec).status = .failed
  ∧ (heightOnClose hparse o rec).error =
      some (jsOrString o.stderr "Process failed with code 0")
  ∧ (deforestationOnClose dparse o rec).status = .failed
  ∧ (deforestationOnClose dparse o rec).error =
      some (jsOrString o.stderr "Processing failed") := by
  have hc : ¬(o.code = some 0 ∧ o.stdout ≠ "") := by simp [hout]
  have hcode : ("Process failed with code " ++ codeText o.code) = "Process failed with code 0" := by
    rw [h0]
    rfl
  refine ⟨?_, ?_, ?_, ?_⟩ <;>
    simp [heightOnClose, deforestationOnClose, hc, hcode]

theorem exit_zero_empty_stdout_failed_witness :
    (heightOnClose (fun _ => .ok { buildings := none })
        { code := some 0, stdout := "", stderr := "" } (freshProcessingRecord "h")).error
      = some (jsOrString "" "Process failed with code 0")
  ∧ (deforestationOnClose (fun _ => .ok { detections := none })
        { code := some 0, stdout := "", stderr := "" } (freshProcessingRecord "d")).status
      = JobStatus.failed := by
  have h := exit_zero_empty_stdout_failed (fun _ => .ok { buildings := none })
    (fun _ => .ok { detections := none })
    { code := some 0, stdout := "", stderr := "" } (freshProcessingRecord "d") rfl rfl
  exact ⟨h.2.1, h.2.2.1⟩

/-- C10 counterexample: for the deforestation kind at exit code 0 with empty
stdout and empty stderr, the recorded error is the generic "Processing
failed" — not the accumulated stderr (which is empty) and not a message
naming exit code 0 (the string contains no digit 0). -/
theorem defo_generic_error_not_naming_code :
    (deforestationOnClose (fun _ => .ok { detections := none })
        { code := some 0, stdout := "", stderr := "" } (freshProcessingRecord "d")).status
      = JobStatus.failed
  ∧ (deforestationOnClose (fun _ => .ok { detections := none })
        { code := some 0, stdout := "", stderr := "" } (freshProcessingRecord "d")).error
      = some "Processing failed"
  ∧ "Processing failed" ≠ ""
  ∧ "Processing failed".data.contains (Char.ofNat 48) = false := by
  refine ⟨rfl, rfl, by decide, by decide⟩

/-- C2 (amended): for bounding boxes with minLat ≥ maxLat or minLng ≥ maxLng,
submission fails synchronously with the invalid-bounds error and no job
record is created for deforestation, mining, fire and generic segmentation;
building-height, however, performs no ordering check: it admits inverted
bounds and creates a job record whenever the (then non-positive) computed
area passes the 100 km² ceiling. -/
theorem inverted_bounds_rejection (pid : String) (b : Bounds)
    (hb : b.minLat ≥ b.maxLat ∨ b.minLng ≥ b.maxLng) :
    deforestationAdmission pid (some b) = .error .invalidBounds
  ∧ miningAdmission pid (some b) = .error .invalidBounds
  ∧ fireAdmission pid (some b) = .error .invalidBounds
  ∧ (∀ w x y z : ℝ, w ≥ y ∨ x ≥ z →
        processGeographicAreaAdmission w x y z = .error .invalidBounds)
  ∧ (areaSimple b ≤ 100 →
        heightAdmission pid (.boundsInput b) = .ok (freshProcessingRecord pid)) := by
  refine ⟨?_, ?_, ?_, ?_, ?_⟩
  · simp [deforestationAdmission, hb]
  · simp [miningAdmission, hb]
  · simp [fireAdmission, hb]
  · intro w x y z h
    simp [processGeographicAreaAdmission, h]
  · intro hle
    simp [heightAdmission, heightResolveBounds, not_lt.mpr hle]

theorem inverted_bounds_rejection_witness :
    deforestationAdmission "p" (some { minLat := 1, minLng := 0, maxLat := 0, maxLng := 1 })
      = .error .invalidBounds
  ∧ processGeographicAreaAdmission 1 0 0 1 = .error .invalidBounds
  ∧ heightAdmission "p"
      (.boundsInput { minLat := 1, minLng := 0, maxLat := 0, maxLng := 1 })
      = .ok (freshProcessingRecord "p") := by
  have h := inverted_bounds_rejection "p" { minLat := 1, minLng := 0, maxLat := 0, maxLng := 1 }
    (Or.inl (by norm_num))
  exact ⟨h.1, h.2.2.2.1 1 0 0 1 (Or.inl (by norm_num)),
         h.2.2.2.2 (by norm_num [areaSimple])⟩

/-- C2 counterexample: for building-height, bounds with minLat = 1 ≥
maxLat = 0 are NOT rejected as invalid bounds — admission succeeds and a job
record is created (the signed area −12321 passes the 100 km² check). -/
theorem height_inverted_bounds_admitted :
    heightAdmission "h"
        (.boundsInput { minLat := 1, minLng := 0, maxLat := 0, maxLng := 1 })
      = .ok (freshProcessingRecord "h")
  ∧ (1 : ℚ) ≥ 0 := by
  constructor
  · norm_num [heightAdmission, heightResolveBounds, areaSimple]
  · norm_num

theorem admission_if_spec (ceiling : ℚ) (pid : String) (b : Bounds)
    (e : Except AdmissionError JobRecord)
    (he : e = if areaSimple b > ceiling then .error .areaTooLarge
              else .ok (freshProcessingRecord pid)) :
    (e = .error .areaTooLarge ↔ ceiling < areaSimple b)
  ∧ (e = .ok (freshProcessingRecord pid) ↔ areaSimple b ≤ ceiling) := by
  subst he
  by_cases h : ceiling < areaSimple b
  · rw [if_pos h]
    exact ⟨by simp [h], by simp [not_le.mpr h]⟩
  · rw [if_neg h]
    exact ⟨by simp [h], by simp [not_lt.mp h]⟩

/-- C3: for well-ordered bounds, admission rejects with the area-too-large
error exactly when the kind's computed area strictly exceeds its ceiling —
100 km² for building-height, 1,000 km² for generic segmentation, 5,000 km²
for mining, 10,000 km² for deforestation, 50,000 km² for fire — and at or
below the ceiling accepts and creates the job record. -/
theorem area_ceiling_exact (pid : String) (b : Bounds)
    (h1 : b.minLat < b.maxLat) (h2 : b.minLng < b.maxLng) :
    ((heightAdmission pid (.boundsInput b) = .error .areaTooLarge ↔ 100 < areaSimple b)
  ∧ (heightAdmission pid (.boundsInput b) = .ok (freshProcessingRecord pid) ↔
        areaSimple b ≤ 100))
  ∧ ((miningAdmission pid (some b) = .error .areaTooLarge ↔ 5000 < areaSimple b)
  ∧ (miningAdmission pid (some b) = .ok (freshProcessingRecord pid) ↔
        areaSimple b ≤ 5000))
  ∧ ((deforestationAdmission pid (some b) = .error .areaTooLarge ↔ 10000 < areaSimple b)
  ∧ (deforestationAdmission pid (some b) = .ok (freshProcessingRecord pid) ↔
        areaSimple b ≤ 10000))
  ∧ ((fireAdmission pid (some b) = .error .areaTooLarge ↔ 50000 < areaSimple b)
  ∧ (fireAdmission pid (some b) = .ok (freshProcessingRecord pid) ↔
        areaSimple b ≤ 50000))
  ∧ (∀ w x y z : ℝ, w < y → x < z →
        ((processGeographicAreaAdmission w x y z = .error .areaTooLarge ↔
            1000 < calculateAreaSize w x y z)
      ∧ (processGeographicAreaAdmission w x y z = .ok () ↔
            calculateAreaSize w x y z ≤ 1000))) := by
  have hnb : ¬(b.minLat ≥ b.maxLat ∨ b.minLng ≥ b.maxLng) := by
    push_neg
    exact ⟨h1, h2⟩
  refine ⟨?_, ?_, ?_, ?_, ?_⟩
  · exact admission_if_spec 100 pid b _ rfl
  · exact admission_if_spec 5000 pid b _ (if_neg hnb)
  · exact admission_if_spec 10000 pid b _ (if_neg hnb)
  · exact admission_if_spec 50000 pid b _ (if_neg hnb)
  · intro w x y z hw hx
    have hnb2 : ¬(w ≥ y ∨ x ≥ z) := by
      push_neg
      exact ⟨hw, hx⟩
    have hg : processGeographicAreaAdmission w x y z =
        if calculateAreaSize w x y z > 1000 then .error .areaTooLarge
        else .ok () := if_neg hnb2
    by_cases hA : calculateAreaSize w x y z > 1000
    · rw [hg, if_pos hA]
      exact ⟨by simp [hA], by simp [not_le.mpr hA]⟩
    · rw [hg, if_neg hA]
      exact ⟨by simp [hA], by simp [not_lt.mp hA]⟩

theorem calculateAreaSize_equator_concrete :
    calculateAreaSize (-1) 0 1 1 = 2 * (111.32 : ℝ) * (1 * 111.32 * 1) := by
  show ((1 : ℝ) - (-1)) * 111.32 *
      ((1 - 0) * 111.32 * Real.cos (((-1 : ℝ) + 1) / 2 * Real.pi / 180)) =
    2 * (111.32 : ℝ) * (1 * 111.32 * 1)
  have h : ((-1 : ℝ) + 1) / 2 * Real.pi / 180 = 0 := by
    norm_num
  rw [h, Real.cos_zero]
  norm_num

theorem area_ceiling_exact_witness :
    heightAdmission "p"
        (.boundsInput { minLat := -1, minLng := 0, maxLat := 1, maxLng := 1 })
      = .error .areaTooLarge
  ∧ deforestationAdmission "p"
        (some { minLat := -1, minLng := 0, maxLat := 1, maxLng := 1 })
      = .error .areaTooLarge
  ∧ fireAdmission "p"
        (some { minLat := -1, minLng := 0, maxLat := 1, maxLng := 1 })
      = .ok (freshProcessingRecord "p")
  ∧ processGeographicAreaAdmission (-1) 0 1 1 = .error .areaTooLarge := by
  have h := area_ceiling_exact "p" { minLat := -1, minLng := 0, maxLat := 1, maxLng := 1 }
    (by norm_num) (by norm_num)
  refine ⟨h.1.1.mpr (by norm_num [areaSimple]),
          h.2.2.1.1.mpr (by norm_num [areaSimple]),
          h.2.2.2.1.2.mpr (by norm_num [areaSimple]), ?_⟩
  refine (h.2.2.2.2 (-1) 0 1 1 (by norm_num) (by norm_num)).1.mpr ?_
  rw [calculateAreaSize_equator_concrete]
  norm_num

/-- C7 (amended): only generic segmentation validates against the spec's
area formula — `calculateAreaSize` agrees with
ΔlatDeg·111.32·ΔlngDeg·111.32·cos(meanLatRad) for all inputs — while
building-height, deforestation, mining and fire compare the cosine-free
Δlat·Δlng·111·111 value against their ceilings, a strictly different
formula. -/
theorem area_formula_by_kind :
    (∀ w x y z : ℝ, calculateAreaSize w x y z = specAreaKm2 w x y z)
  ∧ (∀ (pid : String) (b : Bounds), heightAdmission pid (.boundsInput b) =
        (if areaSimple b > 100 then .error .areaTooLarge
         else .ok (freshProcessingRecord pid)))
  ∧ (∀ (pid : String) (b : Bounds), deforestationAdmission pid (some b) =
        (if b.minLat ≥ b.maxLat ∨ b.minLng ≥ b.maxLng then .error .invalidBounds
         else if areaSimple b > 10000 then .error .areaTooLarge
         else .ok (freshProcessingRecord pid)))
  ∧ (∀ b : Bounds, areaSimple b =
        (b.maxLat - b.minLat) * (b.maxLng - b.minLng) * 111 * 111) := by
  refine ⟨?_, fun pid b => rfl, fun pid b => rfl, fun b => rfl⟩
  intro w x y z
  show (y - w) * 111.32 * ((z - x) * 111.32 * Real.cos ((w + y) / 2 * Real.pi / 180)) =
    specAreaKm2 w x y z
  unfold specAreaKm2
  ring

/-- C7 counterexample: for the building-height kind, the bounds
minLat = −1, minLng = 0, maxLat = 1, maxLng = 81/20000 are admitted (the
code's area Δlat·Δlng·111·111 = 99.8001 passes the 100 km² ceiling), yet the
spec formula gives 2·111.32·0.00405·111.32·cos 0 ≈ 100.376 > 100 — the area
the code compares against the ceiling is not the spec's formula. -/
theorem height_area_differs_from_spec_formula :
    heightAdmission "h"
        (.boundsInput { minLat := -1, minLng := 0, maxLat := 1, maxLng := 81 / 20000 })
      = .ok (freshProcessingRecord "h")
  ∧ 100 < specAreaKm2 (-1) 0 1 (81 / 20000)
  ∧ ((areaSimple { minLat := -1, minLng := 0, maxLat := 1, maxLng := 81 / 20000 } : ℚ) : ℝ)
      ≠ specAreaKm2 (-1) 0 1 (81 / 20000) := by
  have hspec : specAreaKm2 (-1) 0 1 (81 / 20000) =
      2 * (111.32 : ℝ) * (81 / 20000) * 111.32 := by
    unfold specAreaKm2
    have h : ((-1 : ℝ) + 1) / 2 * Real.pi / 180 = 0 := by
      norm_num
    rw [h, Real.cos_zero]
    norm_num
  refine ⟨?_, ?_, ?_⟩
  · norm_num [heightAdmission, heightResolveBounds, areaSimple]
  · rw [hspec]
    norm_num
  · rw [hspec]
    norm_num [areaSimple]

/-- C8 (amended): for the Δlat·Δlng·111·111 area used by building-height,
deforestation, mining and fire admission, well-ordered bounds always give a
non-negative area, and the area is monotone in each dimension: decreasing
minLat or minLng, or increasing maxLat or maxLng, never decreases it.  (The
property does NOT extend to generic segmentation's `calculateAreaSize`,
which can be negative for well-ordered bounds at latitudes outside the
geographic range — no code path restricts the latitude range.) -/
theorem simple_area_nonneg_monotone (b bp : Bounds)
    (h1 : b.minLat < b.maxLat) (h2 : b.minLng < b.maxLng)
    (e1 : bp.minLat ≤ b.minLat) (e2 : bp.minLng ≤ b.minLng)
    (e3 : b.maxLat ≤ bp.maxLat) (e4 : b.maxLng ≤ bp.maxLng) :
    0 ≤ areaSimple b ∧ areaSimple b ≤ areaSimple bp := by
  have a1 : (0 : ℚ) ≤ b.maxLat - b.minLat := by linarith
  have a2 : (0 : ℚ) ≤ b.maxLng - b.minLng := by linarith
  have a3 : b.maxLat - b.minLat ≤ bp.maxLat - bp.minLat := by linarith
  have a4 : b.maxLng - b.minLng ≤ bp.maxLng - bp.minLng := by linarith
  unfold areaSimple
  constructor
  · have := mul_nonneg a1 a2
    nlinarith
  · nlinarith [mul_le_mul a3 a4 a2 (le_trans a1 a3)]

theorem simple_area_nonneg_monotone_witness :
    0 ≤ areaSimple { minLat := 0, minLng := 0, maxLat := 1, maxLng := 1 }
  ∧ areaSimple { minLat := 0, minLng := 0, maxLat := 1, maxLng := 1 }
      ≤ areaSimple { minLat := -1, minLng := -1, maxLat := 2, maxLng := 2 } := by
  exact simple_area_nonneg_monotone
    { minLat := 0, minLng := 0, maxLat := 1, maxLng := 1 }
    { minLat := -1, minLng := -1, maxLat := 2, maxLng := 2 }
    (by norm_num) (by norm_num) (by norm_num) (by norm_num) (by norm_num) (by norm_num)

/-- C8 counterexample: `calculateAreaSize` is negative at the well-ordered
bounds minLat = 179 < maxLat = 181, minLng = 0 < maxLng = 1 (latitudes no
code path rejects): the mean latitude is 180°, whose cosine is −1, so the
computed area is −2·111.32·111.32 < 0. -/
theorem calculateAreaSize_negative_example :
    (179 : ℝ) < 181 ∧ (0 : ℝ) < 1 ∧ calculateAreaSize 179 0 181 1 < 0 := by
  refine ⟨by norm_num, by norm_num, ?_⟩
  show ((181 : ℝ) - 179) * 111.32 *
      ((1 - 0) * 111.32 * Real.cos (((179 : ℝ) + 181) / 2 * Real.pi / 180)) < 0
  have h : ((179 : ℝ) + 181) / 2 * Real.pi / 180 = Real.pi := by
    field_simp
    ring
  rw [h, Real.cos_pi]
  norm_num
